import Mathlib

/-!
Verification development for the onboarding / access-gating pipeline of
`bot/handlers/user/start.py` and `bot/utils/edit_message.py`
(remnawave-tg-shop).

The Python source is shallowly embedded as pure Lean functions:

* asynchronous calls to the messaging API and to the persistence layer are
  modelled by explicit outcome parameters (one per call site), and each
  run is summarised by the ordered list of calls/effects it performs;
* Python exceptions are modelled by explicit `raised` flags / early
  returns: a call site wrapped in `try/except` in the source swallows its
  failure, an unwrapped call site propagates it;
* Telegram user ids are `Nat`, channel ids are `Int` (channel ids are
  negative in practice); timestamps are not modelled (no claim mentions
  them beyond "checked_at is written", which is part of the cache write).
-/

/-! ### Start-payload grammar (the router regexes, start.py lines 419-422)

The payload of a `/start` command is matched, in handler-registration
order (innermost decorator first), against
  1. `^(?!ref_|promo_)([A-Za-z0-9_\-]{2,64})$`   (ad tag)
  2. `^promo_(\w+)$`                              (promo code)
  3. `^ref_((?:[uU][A-Za-z0-9]{9})|(?:[A-Za-z0-9]{9})|\d+)$` (referral)
  4. bare `CommandStart()`                        (anything else)
Payload strings are modelled as `List Char` (Telegram start payloads are
ASCII `[A-Za-z0-9_-]`, so the ASCII character classes of `Char` coincide
with the Python regex classes here). -/

def isWordChar (c : Char) : Bool := c.isAlphanum || c == '_'

def isAdChar (c : Char) : Bool := c.isAlphanum || c == '_' || c == '-'

def adMatch (s : List Char) : Option (List Char) :=
  if !("ref_".data.isPrefixOf s) && !("promo_".data.isPrefixOf s)
      && decide (2 ≤ s.length) && decide (s.length ≤ 64) && s.all isAdChar
  then some s else none

def promoMatch (s : List Char) : Option (List Char) :=
  if "promo_".data.isPrefixOf s then
    let t := s.drop 6
    if !t.isEmpty && t.all isWordChar then some t else none
  else none

/-- The capture group of the referral regex:
`(?:[uU][A-Za-z0-9]{9})|(?:[A-Za-z0-9]{9})|\d+`. -/
def refGroupOk (t : List Char) : Bool :=
  (decide (t.length = 10) &&
    (match t with
     | c :: rest => (c == 'u' || c == 'U') && rest.all Char.isAlphanum
     | [] => false))
  || (decide (t.length = 9) && t.all Char.isAlphanum)
  || (!t.isEmpty && t.all Char.isDigit)

def refMatch (s : List Char) : Option (List Char) :=
  if "ref_".data.isPrefixOf s then
    let t := s.drop 4
    if refGroupOk t then some t else none
  else none

/-- Which of the four registered `CommandStart` filters fires for a given
payload (`none` = `/start` without arguments). Registration order is
ad → promo → ref → plain; the three regexes are mutually exclusive. -/
inductive StartMatch where
  | refM (g : List Char)
  | promoM (g : List Char)
  | adM (g : List Char)
  | plain
deriving DecidableEq, Repr

def classifyPayload (p : Option (List Char)) : StartMatch :=
  match p with
  | none => .plain
  | some s =>
    match adMatch s with
    | some g => .adM g
    | none =>
      match promoMatch s with
      | some g => .promoM g
      | none =>
        match refMatch s with
        | some g => .refM g
        | none => .plain

/-! ### Referral resolution (start.py lines 445-462) -/

/-- `int(...)` on a digit string. -/
def digitsToNat (t : List Char) : Nat :=
  t.foldl (fun acc c => acc * 10 + (c.toNat - '0'.toNat)) 0

/-- Python `str.strip()`. -/
def stripChars (t : List Char) : List Char :=
  ((t.dropWhile Char.isWhitespace).reverse.dropWhile Char.isWhitespace).reverse

/-- `if normalized_code and normalized_code[0].lower() == "u": normalized_code = normalized_code[1:]` -/
def dropLeadingU (t : List Char) : List Char :=
  match t with
  | c :: rest => if c.toLower == 'u' then rest else t
  | [] => []

/-- Lines 446-462 of `start_command_handler`: turn the referral capture
group into the resolved referrer id.
`userExists` models `user_dal.get_user_by_id` returning a row,
`codeLookup` models `user_dal.get_user_by_referral_code` returning the
owner's id. -/
def resolveRef (userId : Nat) (legacy : Bool) (userExists : Nat → Bool)
    (codeLookup : List Char → Option Nat) (raw : List Char) : Option Nat :=
  if !raw.isEmpty && raw.all Char.isDigit then
    if legacy then
      let pid := digitsToNat raw
      if pid != userId && userExists pid then some pid else none
    else none
  else
    let normalized := dropLeadingU (stripChars raw)
    match (if !normalized.isEmpty then codeLookup normalized else none) with
    | some rid => if rid != userId then some rid else none
    | none => none

/-- The request-scoped attribution intent (spec §3): at most one of
referral / promo / ad tag is produced per event. -/
inductive Intent where
  | referral (rid : Nat)
  | promoCode (code : List Char)
  | adTag (tok : List Char)
  | noneI
deriving DecidableEq, Repr

/-- Attribution resolution: the three mutually-exclusive payload branches
of `start_command_handler` (lines 445-468). -/
def resolveIntent (userId : Nat) (legacy : Bool) (userExists : Nat → Bool)
    (codeLookup : List Char → Option Nat) (payload : Option (List Char)) : Intent :=
  match classifyPayload payload with
  | .refM g =>
    match resolveRef userId legacy userExists codeLookup g with
    | some rid => .referral rid
    | none => .noneI
  | .promoM g => .promoCode g
  | .adM g => .adTag g
  | .plain => .noneI

example : classifyPayload (some "123456789".data) = .adM "123456789".data := by decide
example : classifyPayload (some "ref_123456789".data) = .refM "123456789".data := by decide
example : classifyPayload (some "promo_SAVE20".data) = .promoM "SAVE20".data := by decide
example : classifyPayload (some "ref_abc".data) = .plain := by decide
example : resolveIntent 1 false (fun _ => true) (fun _ => none)
    (some "ref_123456789".data) = .noneI := by decide
example : resolveIntent 1 true (fun i => i == 123456789) (fun _ => none)
    (some "ref_123456789".data) = .referral 123456789 := by decide
example : resolveIntent 1 true (fun _ => true) (fun c => if c = "ABCDEFGH9".data then some 7 else none)
    (some "ref_uABCDEFGH9".data) = .referral 7 := by decide

/-! ### Channel gate (`ensure_required_channel_subscription`, start.py lines 241-416)

The user record is modelled by the three verification-cache fields the
gate reads; the persistence read that resolves it (either the `db_user`
argument or the in-gate `get_user_by_id` fetch) is modelled as already
resolved and reliable.  The event's bot binding is always present under
the dispatcher, so the defensive `bot_instance is None` branch
(lines 267-271) is not modelled.

IMPORTANT modelling point (lines 316-341): the names `TelegramBadRequest`,
`TelegramForbiddenError` and `TelegramAPIError` are referenced in the
`except` clauses but are never imported in `start.py`.  In Python the
expression of an `except` clause is evaluated only when an exception
reaches it, and evaluating the first clause then raises
`NameError: name 'TelegramBadRequest' is not defined`, which replaces the
original exception and propagates out of the gate.  Hence EVERY exception
raised by `get_chat_member` (including the "user is not a participant"
bad-request) escapes the gate as a `NameError`: no check-failed message is
sent, no cache write happens, and no decision is returned. -/

/-- Outcome of the single `get_chat_member` call. -/
inductive MemberQuery where
  | status (s : String)   -- returns a member object with this status
  | badRequest            -- raises TelegramBadRequest (user not a participant)
  | forbidden             -- raises TelegramForbiddenError (bot lacks rights)
  | apiError              -- raises any other TelegramAPIError
deriving DecidableEq, Repr

/-- The channel-verification cache fields of the user row. -/
structure GateUser where
  verified : Bool
  verifiedFor : Option Int
deriving DecidableEq, Repr

structure GateEnv where
  requiredChannel : Option Int      -- settings.REQUIRED_CHANNEL_ID (None = unset)
  isAdmin : Bool                    -- user_id in settings.ADMIN_IDS
  dbUser : Option GateUser          -- resolved user row (none = not persisted yet)
  query : MemberQuery
  persistOk : Bool                  -- user_dal.update_user of the cache tuple
deriving DecidableEq, Repr

inductive GateMsg where
  | checkFailed     -- translated "channel_subscription_check_failed"
  | blockPrompt     -- translated "channel_subscription_required" (+ join keyboard)
deriving DecidableEq, Repr

structure GateOut where
  raised : Bool                     -- a NameError escaped the gate
  allow : Bool                      -- return value (meaningful when ¬raised)
  liveQueries : Nat                 -- number of get_chat_member calls issued
  cacheWrite : Option (Int × Bool)  -- attempted cache tuple (verified_for, verified);
                                    -- checked_at=now is part of the same payload.
                                    -- A persistence failure of this write is
                                    -- swallowed (lines 368-376) and does not
                                    -- change anything below.
  msgs : List GateMsg
deriving DecidableEq, Repr

def allowedStatuses : List String := ["creator", "administrator", "member", "restricted"]

def ensureRequiredChannelSubscription (e : GateEnv) : GateOut :=
  match e.requiredChannel with
  | none => ⟨false, true, 0, none, []⟩        -- `if not required_channel_id`
  | some ch =>
    if ch == 0 then ⟨false, true, 0, none, []⟩ -- 0 is falsy in Python
    else if e.isAdmin then ⟨false, true, 0, none, []⟩
    else
      match e.dbUser with
      | none => ⟨false, true, 0, none, []⟩     -- `if not db_user: ... return True`
      | some u =>
        if u.verified && u.verifiedFor == some ch then
          ⟨false, true, 0, none, []⟩
        else
          match e.query with
          | .status s =>
            let isMember := allowedStatuses.contains s
            if isMember then ⟨false, true, 1, some (ch, true), []⟩
            else ⟨false, false, 1, some (ch, false), [.blockPrompt]⟩
          | .badRequest => ⟨true, false, 1, none, []⟩  -- NameError (missing import)
          | .forbidden => ⟨true, false, 1, none, []⟩   -- NameError (missing import)
          | .apiError => ⟨true, false, 1, none, []⟩    -- NameError (missing import)

/-- The condition under which, per claim C3, a live membership query must
occur: a channel is configured (truthy), the user is not an admin, the
user row exists, and the cache does not hold `verified=true` for exactly
the required channel. -/
def gateLiveCond (e : GateEnv) : Bool :=
  match e.requiredChannel, e.dbUser with
  | some ch, some u =>
    !(ch == 0) && !e.isAdmin && !(u.verified && u.verifiedFor == some ch)
  | _, _ => false

/-- A query outcome that is a fault (as opposed to a definitive
member/not-member result).  With the missing-import bug every raising
outcome escapes as NameError, so `badRequest` — intended as a definitive
"not a member" — is a fault too in the code as written. -/
def queryRaises : MemberQuery → Bool
  | .status _ => false
  | _ => true

/-- Definitive membership value of a query outcome (what the intended
handling maps it to). -/
def queryIsMember : MemberQuery → Bool
  | .status s => allowedStatuses.contains s
  | _ => false

/-! ### Render pipeline

`send_main_menu` (start.py lines 92-238), `edit_photo_menu`
(bot/utils/edit_message.py) and `reply_or_edit` (start.py lines 40-89).

Each messaging-API call site gets one outcome parameter.  Callback
acknowledgments (`CallbackQuery.answer`) are recorded in the trace but
modelled as infallible: the claims quantify over failures of the
send/edit/delete calls only.  For a `CallbackQuery`, `event.answer(...)`
is the acknowledgment; for a `Message`, `event.answer(text)` sends a
message and is fallible. -/

/-- Labels for messaging-API calls issued by the render pipeline. -/
inductive MCall where
  | cEditCaption                    -- edit_caption / edit_message_caption
  | cEditMedia (withCaption : Bool) -- edit_media with an InputMediaPhoto
  | cAnswerPhoto                    -- message.answer_photo (send new photo)
  | cSendPhoto                      -- bot.send_photo (send new photo directly)
  | cEditText                       -- edit_text
  | cAnswerText                     -- message.answer / send_message (send new text)
  | cCbAlert                        -- CallbackQuery.answer with text/alert
  | cAck                            -- CallbackQuery.answer() (plain ack)
  | cDelete                         -- message.delete
deriving DecidableEq, Repr

structure MenuOut where
  raised : Bool
  calls : List MCall
deriving DecidableEq, Repr

structure MenuEnv where
  i18nPresent : Bool   -- i18n_data contains an i18n_instance
  isCallback : Bool    -- target_event is a CallbackQuery (else a Message)
  cbHasMessage : Bool  -- callback.message is present (ignored for Message events)
  hasImage : Bool      -- os.path.isfile + os.access on bot/static/mainmenu.png
  isEdit : Bool        -- is_edit argument
  msgHasPhoto : Bool   -- message_obj.photo is non-empty
deriving DecidableEq, Repr

/-- One Bool per fallible call site of `send_main_menu`
(true = the call succeeds). -/
structure MenuApi where
  fallbackMsgAnswerOk : Bool  -- line 113: message.answer(fallback) (i18n missing)
  fallbackEvtAnswerOk : Bool  -- line 116: event.answer(fallback) (i18n missing, Message)
  editCaptionOk : Bool        -- line 157
  editMediaOk : Bool          -- line 161
  editFbAnswerPhotoOk : Bool  -- lines 171/173: answer_photo after a failed edit
  freshAnswerPhotoOk : Bool   -- lines 184/193: answer_photo, fresh render
  freshDirectSendOk : Bool    -- lines 188/200: bot.send_photo, fresh render
  editTextOk : Bool           -- line 208: edit_text (image missing)
  textFbAnswerOk : Bool       -- line 211: message_obj.answer after failed edit_text
  cbAlertOk : Bool            -- line 216: event.answer(caption, show_alert=False)
  finalAnswerOk : Bool        -- lines 224/227: final-fallback send
deriving DecidableEq, Repr

/-- Does `send_main_menu` have a message object to address
(line 139-144: the callback's message, or the message event itself)? -/
def menuMsgObj (e : MenuEnv) : Bool := !e.isCallback || e.cbHasMessage

/-- The messaging calls of the i18n-present part of `send_main_menu`
(lines 149-231).  Every call site in this region sits under a
`try/except` (the outermost one at lines 149/219), so no exception
escapes it; the trace records which calls are attempted, depending on
which earlier calls failed. -/
def sendMainMenuCalls (e : MenuEnv) (a : MenuApi) : List MCall :=
  if e.hasImage then
    if e.isEdit && menuMsgObj e then
      -- edit path (lines 153-179)
      if e.msgHasPhoto then
        if a.editCaptionOk then [.cEditCaption]
        else [.cEditCaption, .cAnswerPhoto]   -- fallback send, failure swallowed
      else
        if a.editMediaOk then [.cEditMedia true]
        else [.cEditMedia true, .cAnswerPhoto]
    else
      -- fresh render (lines 181-202)
      if e.isCallback then
        if e.cbHasMessage then
          if a.freshAnswerPhotoOk then [.cAnswerPhoto]
          else [.cAnswerPhoto, .cSendPhoto]   -- direct send, failure swallowed
        else [.cSendPhoto]                    -- bot.send_photo, failure swallowed
      else
        [.cAnswerPhoto]                       -- failure swallowed (line 195)
  else
    -- image missing: degrade to text (lines 203-218)
    if menuMsgObj e then
      if a.editTextOk then [.cEditText]
      else [.cEditText, .cAnswerText]         -- failure swallowed (line 212)
    else
      -- callback without message: event.answer(caption); if it fails the
      -- outer handler (lines 219-231) retries the same call, swallowed
      if a.cbAlertOk then [.cCbAlert] else [.cCbAlert, .cCbAlert]

def sendMainMenu (e : MenuEnv) (a : MenuApi) : MenuOut :=
  if e.i18nPresent then
    -- lines 149-231 never propagate; lines 234-238 answer the callback
    ⟨false, sendMainMenuCalls e a ++ (if e.isCallback then [.cAck] else [])⟩
  else
    -- lines 107-117: no try/except here, a failed send propagates
    if e.isCallback then
      if e.cbHasMessage then
        if a.fallbackMsgAnswerOk then ⟨false, [.cAnswerText, .cAck]⟩
        else ⟨true, [.cAnswerText]⟩           -- raises before the ack
      else ⟨false, [.cAck]⟩
    else
      if a.fallbackEvtAnswerOk then ⟨false, [.cAnswerText]⟩
      else ⟨true, [.cAnswerText]⟩

/-- `edit_photo_menu` (bot/utils/edit_message.py).  Only
`TelegramBadRequest` is caught after the caption-edit and media-edit
attempts; any other exception propagates.  The final
`callback.message.edit_text` (line 43) is not wrapped at all, so any
failure there propagates and the closing `callback.answer()` (line 47)
is never reached. -/
inductive CallRes where
  | ok
  | badRequest   -- raises TelegramBadRequest
  | otherErr     -- raises some other exception
deriving DecidableEq, Repr

structure EpmApi where
  editCaption : CallRes
  editMedia : CallRes
  editTextOk : Bool
deriving DecidableEq, Repr

structure EpmOut where
  raised : Bool
  answered : Bool       -- callback.answer() was reached
  calls : List MCall
deriving DecidableEq, Repr

def editPhotoMenu (photoGiven : Bool) (a : EpmApi) : EpmOut :=
  match a.editCaption with
  | .ok => ⟨false, true, [.cEditCaption, .cAck]⟩
  | .otherErr => ⟨true, false, [.cEditCaption]⟩
  | .badRequest =>
    let fallthrough := fun (pre : List MCall) =>
      if a.editTextOk then EpmOut.mk false true (pre ++ [.cEditText, .cAck])
      else EpmOut.mk true false (pre ++ [.cEditText])
    if photoGiven then
      match a.editMedia with
      | .ok => ⟨false, true, [.cEditCaption, .cEditMedia true, .cAck]⟩
      | .otherErr => ⟨true, false, [.cEditCaption, .cEditMedia true]⟩
      | .badRequest => fallthrough [.cEditCaption, .cEditMedia true]
    else fallthrough [.cEditCaption]

/-- `reply_or_edit` (start.py lines 40-89).  Never answers the callback.
All call sites are under catch-all `try/except` apart from the
no-message-context send (line 60). -/
structure RoeEnv where
  hasMessage : Bool
  msgHasPhoto : Bool
  asCaption : Bool
deriving DecidableEq, Repr

structure RoeApi where
  sendNoCtxOk : Bool   -- line 60
  editCaptionOk : Bool -- line 67
  editTextOk : Bool    -- line 74
  sendOk : Bool        -- line 81
  deleteOk : Bool      -- line 83 (failure swallowed)
deriving DecidableEq, Repr

def replyOrEdit (e : RoeEnv) (a : RoeApi) : MenuOut :=
  if !e.hasMessage then
    if a.sendNoCtxOk then ⟨false, [.cAnswerText]⟩ else ⟨true, [.cAnswerText]⟩
  else
    let pre : List MCall :=
      if e.asCaption && e.msgHasPhoto then [.cEditCaption] else []
    if e.asCaption && e.msgHasPhoto && a.editCaptionOk then ⟨false, pre⟩
    else if a.editTextOk then ⟨false, pre ++ [.cEditText]⟩
    else if a.sendOk then ⟨false, pre ++ [.cEditText, .cAnswerText, .cDelete]⟩
    else ⟨false, pre ++ [.cEditText, .cAnswerText]⟩  -- send failure swallowed (line 87)

/-! ### Start-event orchestration (`start_command_handler`, start.py lines 419-630)

The handler is summarised as an ordered trace of persistence / messaging
effects plus the `referred_by` value the user row holds after the event.
Collaborator calls get one outcome parameter per call site; calls whose
failure the source swallows continue the flow, calls outside any
`try/except` abort it where the source aborts.

The welcome send (line 578) and the block-prompt sends are recorded as
trace events without a failure parameter: no claim quantifies over their
failure.  The channel gate is represented by a single `evGate` trace
event whose decision is the `gateAllows` parameter (its internals are the
separate `ensureRequiredChannelSubscription` model above). -/

inductive Ev where
  | evCreate                        -- user_dal.create_user
  | evCommit                        -- session.commit() of the creation
  | evRollback                      -- session.rollback()
  | evGenericError                  -- message.answer(error_occurred_processing_request)
  | evNotify                        -- notify_new_user_registration
  | evUpdate (backfill : Option Nat) -- user_dal.update_user with this referral backfill
  | evAdAttr (tok : List Char)      -- ad_dal.ensure_attribution for this start param
  | evAdCommit                      -- session.commit() of the ad attribution
  | evGate                          -- ensure_required_channel_subscription invoked
  | evWelcome                       -- message.answer(welcome)
  | evPromoApply (code : List Char) -- promo_code_service.apply_promo_code
  | evPromoCommit                   -- session.commit() of the promo application
  | evPromoRollback                 -- session.rollback() in the promo section
  | evPromoSuccess                  -- the promo-success surface send
  | evMainMenu                      -- send_main_menu(message, ..., is_edit=False)
deriving DecidableEq, Repr

/-- Outcome of `apply_promo_code`. -/
inductive PromoApply where
  | applied   -- returns (True, new_end_date)
  | failed    -- returns (False, reason)
  | raised    -- raises
deriving DecidableEq, Repr

structure StartEnv where
  userId : Nat
  payload : Option (List Char)
  legacy : Bool                         -- settings.LEGACY_REFS
  userExists : Nat → Bool               -- user_dal.get_user_by_id row present
  codeLookup : List Char → Option Nat   -- user_dal.get_user_by_referral_code
  dbReferredBy : Option Nat             -- existing row's referred_by_id
  langChanged : Bool                    -- db_user.language_code != current_lang
  nameChanged : Bool                    -- any sanitized name field changed
  hasActiveSub : Bool                   -- actual subscription state
  subCheckOk : Bool                     -- has_active_subscription call succeeds
  createOk : Bool                       -- user_dal.create_user does not raise
  createdFlag : Bool                    -- the `created` flag it returns
  commitOk : Bool                       -- creation commit succeeds
  updateOk : Bool                       -- user_dal.update_user succeeds
  campaignActive : List Char → Bool     -- campaign exists and is_active
  adOk : Bool                           -- ensure_attribution + commit succeed
  gateAllows : Bool                     -- gate decision
  disableWelcome : Bool                 -- settings.DISABLE_WELCOME_MESSAGE
  promoApply : PromoApply
  promoCommitOk : Bool                  -- promo-section session.commit()
  detailsOk : Bool                      -- get_active_subscription_details succeeds
  promoAnswerOk : Bool                  -- promo-success surface send succeeds

structure StartOut where
  trace : List Ev
  referredBy : Option Nat   -- referred_by_id stored after the event
  userPersisted : Bool
deriving DecidableEq, Repr

/-- The inputs read by lines 556-630 of the handler (everything after
the create/update branch). -/
structure TailEnv where
  campaignActive : List Char → Bool
  adOk : Bool
  gateAllows : Bool
  disableWelcome : Bool
  promoApply : PromoApply
  promoCommitOk : Bool
  detailsOk : Bool
  promoAnswerOk : Bool

def StartEnv.tail (e : StartEnv) : TailEnv :=
  ⟨e.campaignActive, e.adOk, e.gateAllows, e.disableWelcome,
   e.promoApply, e.promoCommitOk, e.detailsOk, e.promoAnswerOk⟩

/-- Lines 557-569: the ad-attribution step — `ensure_attribution` plus
commit when an active campaign matches the token; any failure is
swallowed after a rollback. -/
def adPart (t : TailEnv) (adTok : Option (List Char)) : List Ev :=
  match adTok with
  | some tok =>
    if t.campaignActive tok then
      if t.adOk then [.evAdAttr tok, .evAdCommit]
      else [.evAdAttr tok, .evRollback]      -- failure swallowed (lines 564-569)
    else []
  | none => []

/-- Lines 576-578: the welcome message unless suppressed. -/
def welcomePart (t : TailEnv) : List Ev :=
  if t.disableWelcome then [] else [.evWelcome]

/-- Lines 586-623: what follows the `apply_promo_code` call.  On success
the commit, the details fetch and the success-surface send each sit
inside the same `try`; a fault in any of them is caught at line 621,
rolled back, and the flow falls through to the main menu. -/
def promoEnding (t : TailEnv) : List Ev :=
  match t.promoApply with
  | .failed => [.evPromoRollback, .evMainMenu]   -- lines 616-619
  | .raised => [.evPromoRollback, .evMainMenu]   -- lines 621-623
  | .applied =>
    if !t.promoCommitOk then [.evPromoRollback, .evMainMenu]
    else if !t.detailsOk then [.evPromoCommit, .evPromoRollback, .evMainMenu]
    else if !t.promoAnswerOk then [.evPromoCommit, .evPromoRollback, .evMainMenu]
    else [.evPromoCommit, .evPromoSuccess]       -- line 615: return, no menu

/-- Lines 556-630: the tail of the handler shared by the create and
update branches — ad attribution, channel gate, welcome, promo
auto-application, main-menu render.  This stretch of the source never
writes `referred_by` and always returns (early at lines 574/615 or at
the end), so it is modelled as the list of effects it performs. -/
def startTail (t : TailEnv) (adTok : Option (List Char))
    (promo : Option (List Char)) (pre : List Ev) : List Ev :=
  let pre := pre ++ adPart t adTok
  let pre := pre ++ [.evGate]
  if !t.gateAllows then pre                  -- line 574: return
  else
    let pre := pre ++ welcomePart t
    match promo with
    | none => pre ++ [.evMainMenu]
    | some c => (pre ++ [.evPromoApply c]) ++ promoEnding t

def startCommandHandler (e : StartEnv) : StartOut :=
  let intent := resolveIntent e.userId e.legacy e.userExists e.codeLookup e.payload
  let referred : Option Nat := match intent with | .referral r => some r | _ => none
  let promo : Option (List Char) := match intent with | .promoCode c => some c | _ => none
  let adTok : Option (List Char) := match intent with | .adTag t => some t | _ => none
  if !e.userExists e.userId then
    -- lines 475-522: create branch
    if !e.createOk then ⟨[.evCreate, .evGenericError], none, false⟩  -- lines 516-522
    else if e.createdFlag then
      if !e.commitOk then
        ⟨[.evCreate, .evCommit, .evRollback, .evGenericError], none, false⟩ -- 489-498
      else
        ⟨startTail e.tail adTok promo [.evCreate, .evCommit, .evNotify], referred, true⟩
    else
      -- concurrent create race: create_user returned the existing row
      ⟨startTail e.tail adTok promo [.evCreate], e.dbReferredBy, true⟩
  else
    -- lines 523-554: update branch
    let reportedActive := if e.subCheckOk then e.hasActiveSub else false
    let backfill : Option Nat :=
      match referred, e.dbReferredBy with
      | some r, none => if !reportedActive then some r else none
      | _, _ => none
    let doUpdate := e.langChanged || e.nameChanged || backfill.isSome
    let refBy :=
      if doUpdate && e.updateOk && backfill.isSome then backfill else e.dbReferredBy
    let pre := if doUpdate then [Ev.evUpdate backfill] else []
    ⟨startTail e.tail adTok promo pre, refBy, true⟩

/-- Resolved referrer of an event, for stating the claims. -/
def resolvedReferrer (e : StartEnv) : Option Nat :=
  match resolveIntent e.userId e.legacy e.userExists e.codeLookup e.payload with
  | .referral r => some r
  | _ => none

/-! ### Helper lemmas -/

lemma not_isPrefixOf_of_all {p : Char → Bool} {c : Char} (t s : List Char)
    (hs : s.all p = true) (hc : p c = false) : (c :: t).isPrefixOf s = false := by
  cases s with
  | nil => rfl
  | cons d ds =>
    simp only [List.all_cons, Bool.and_eq_true] at hs
    by_cases hcd : c = d
    · subst hcd; exact absurd hs.1 (by simp [hc])
    · simp [List.isPrefixOf, hcd]

lemma isPrefixOf_append_self (l s : List Char) : l.isPrefixOf (l ++ s) = true := by
  induction l with
  | nil => simp [List.isPrefixOf]
  | cons a t ih => simp [List.isPrefixOf, ih]

lemma isAdChar_of_isDigit {c : Char} (h : c.isDigit = true) : isAdChar c = true := by
  simp [isAdChar, Char.isAlphanum, h]

lemma all_isAdChar_of_all_isDigit {s : List Char} (h : s.all Char.isDigit = true) :
    s.all isAdChar = true := by
  rw [List.all_eq_true] at h ⊢
  exact fun c hc => isAdChar_of_isDigit (h c hc)

/-! ### Claim C2 -/

/-- Concrete environment for claim C2: payload `123456789`, legacy
referrals disabled, acting user 1 already persisted, an active ad
campaign registered under start param `123456789`. -/
def c2Env : StartEnv :=
  { userId := 1
    payload := some "123456789".data
    legacy := false
    userExists := fun i => i == 1
    codeLookup := fun _ => none
    dbReferredBy := none
    langChanged := false
    nameChanged := false
    hasActiveSub := false
    subCheckOk := true
    createOk := true
    createdFlag := true
    commitOk := true
    updateOk := true
    campaignActive := fun t => t == "123456789".data
    adOk := true
    gateAllows := true
    disableWelcome := false
    promoApply := .failed
    promoCommitOk := true
    detailsOk := true
    promoAnswerOk := true }

/-- C2 counterexample: the purely numeric payload `123456789` (no `ref_`
prefix) with the legacy-referral flag disabled does NOT resolve to the
`None` intent — it matches the ad-tag route (`^(?!ref_|promo_)[A-Za-z0-9_\-]{2,64}$`),
resolves to `AdTag "123456789"`, and ad attribution is recorded for it
when a matching active campaign exists. -/
theorem c2_counterexample :
    resolveIntent 1 false (fun i => i == 1) (fun _ => none) (some "123456789".data)
      = Intent.adTag "123456789".data
    ∧ Ev.evAdAttr "123456789".data ∈ (startCommandHandler c2Env).trace
    ∧ Ev.evAdCommit ∈ (startCommandHandler c2Env).trace := by decide

/-- C2 (amended): a purely numeric start payload of 2-64 characters with
no `ref_` prefix resolves to the `AdTag` intent for that token (so no
referrer is set and no promo code is queued, but ad-tag attribution may
be recorded); the numeric value resolves to the `None` intent when it is
carried as `ref_<digits>` with the legacy-referral flag disabled. -/
theorem c2_amended (uid : Nat) (legacy : Bool) (ue : Nat → Bool)
    (cl : List Char → Option Nat) (s : List Char)
    (hd : s.all Char.isDigit = true) (h2 : 2 ≤ s.length) (h64 : s.length ≤ 64) :
    resolveIntent uid legacy ue cl (some s) = Intent.adTag s
    ∧ (legacy = false →
        resolveIntent uid legacy ue cl (some ("ref_".data ++ s)) = Intent.noneI) := by
  have hrefpre : "ref_".data.isPrefixOf s = false := by
    have : "ref_".data = 'r' :: "ef_".data := rfl
    rw [this]
    exact not_isPrefixOf_of_all _ _ hd (by decide)
  have hpromopre : "promo_".data.isPrefixOf s = false := by
    have : "promo_".data = 'p' :: "romo_".data := rfl
    rw [this]
    exact not_isPrefixOf_of_all _ _ hd (by decide)
  constructor
  · have had : adMatch s = some s := by
      simp [adMatch, hrefpre, hpromopre, h2, h64, all_isAdChar_of_all_isDigit hd]
    simp [resolveIntent, classifyPayload, had]
  · intro hleg
    subst hleg
    have had : adMatch ("ref_".data ++ s) = none := by
      simp [adMatch, isPrefixOf_append_self]
    have hpromo : promoMatch ("ref_".data ++ s) = none := by
      have hne : s ≠ [] := by
        intro h; rw [h] at h2; simp at h2
      obtain ⟨a, t, rfl⟩ := List.exists_cons_of_ne_nil hne
      rfl
    have href : refMatch ("ref_".data ++ s) = some s := by
      have hg : refGroupOk s = true := by
        have hne : s.isEmpty = false := by
          cases s with
          | nil => simp at h2
          | cons a t => rfl
        simp [refGroupOk, hne, hd]
      have hdrop : ("ref_".data ++ s).drop 4 = s := rfl
      simp [refMatch, isPrefixOf_append_self, hdrop, hg]
    have hres : resolveRef uid false ue cl s = none := by
      have hne : s.isEmpty = false := by
        cases s with
        | nil => simp at h2
        | cons a t => rfl
      simp [resolveRef, hne, hd]
    have hclass : classifyPayload (some ("ref_".data ++ s)) = StartMatch.refM s := by
      simp only [classifyPayload, had, hpromo, href]
    simp only [resolveIntent, hclass, hres]

/-- C2 witness: the amended claim evaluated at payload `123456789`. -/
theorem c2_amended_witness :
    resolveIntent 1 false (fun _ => false) (fun _ => none) (some "123456789".data)
      = Intent.adTag "123456789".data
    ∧ resolveIntent 1 false (fun _ => false) (fun _ => none) (some "ref_123456789".data)
      = Intent.noneI :=
  ⟨(c2_amended 1 false (fun _ => false) (fun _ => none) "123456789".data
      (by decide) (by decide) (by decide)).1,
   (c2_amended 1 false (fun _ => false) (fun _ => none) "123456789".data
      (by decide) (by decide) (by decide)).2 rfl⟩

/-! ### Claim C8 -/

/-- C8: referral-payload resolution.  A non-numeric referral code is
normalized (strip + one leading `u`/`U` dropped case-insensitively)
before the referral-code lookup and yields a referrer exactly when the
lookup resolves a user different from the acting user; a purely numeric
referral value yields a referrer exactly when the legacy-referral flag is
enabled, the id differs from the acting user, and it names an existing
user. -/
theorem c8_referral_resolution (uid : Nat) (legacy : Bool) (ue : Nat → Bool)
    (cl : List Char → Option Nat) (raw : List Char) (r : Nat) :
    (raw ≠ [] → raw.all Char.isDigit = true →
      (resolveRef uid legacy ue cl raw = some r ↔
        legacy = true ∧ r = digitsToNat raw ∧ r ≠ uid ∧ ue r = true))
    ∧ (raw.all Char.isDigit = false →
      (resolveRef uid legacy ue cl raw = some r ↔
        cl (dropLeadingU (stripChars raw)) = some r ∧ r ≠ uid
        ∧ dropLeadingU (stripChars raw) ≠ [])) := by
  constructor
  · intro hne hall
    have hE : raw.isEmpty = false := by
      cases raw with
      | nil => exact absurd rfl hne
      | cons a t => rfl
    cases legacy with
    | false => simp [resolveRef, hE, hall]
    | true =>
      simp only [resolveRef, hE, hall, Bool.not_false, Bool.and_self, if_true]
      by_cases hcond : (digitsToNat raw != uid && ue (digitsToNat raw)) = true
      · rw [if_pos hcond]
        simp only [Bool.and_eq_true, bne_iff_ne] at hcond
        constructor
        · rintro h
          injection h with h
          subst h
          exact ⟨by trivial, rfl, hcond.1, hcond.2⟩
        · rintro ⟨-, rfl, -, -⟩
          rfl
      · rw [if_neg hcond]
        simp only [Bool.and_eq_true, bne_iff_ne, not_and_or] at hcond
        constructor
        · intro h; exact absurd h (by simp)
        · rintro ⟨-, rfl, hru, hue⟩
          rcases hcond with h | h
          · exact absurd hru (by simpa using h)
          · exact absurd hue (by simpa using h)
  · intro hnd
    have hcond : (!raw.isEmpty && raw.all Char.isDigit) = false := by
      simp [hnd]
    simp only [resolveRef, hcond, Bool.false_eq_true, if_false]
    cases hE : (dropLeadingU (stripChars raw)).isEmpty with
    | true =>
      have : dropLeadingU (stripChars raw) = [] := by
        simpa using hE
      simp [hE, this]
    | false =>
      have hne : dropLeadingU (stripChars raw) ≠ [] := by
        intro h; rw [h] at hE; simp at hE
      cases hcl : cl (dropLeadingU (stripChars raw)) with
      | none => simp [hE, hcl]
      | some rid =>
        simp only [hE, Bool.not_false, if_true, hcl]
        by_cases hru : rid = uid
        · subst hru
          simp [hne]
          intro h; subst h; simp
        · simp only [bne_iff_ne, ne_eq, hru, not_false_eq_true, if_true]
          constructor
          · rintro h; injection h with h; subst h
            exact ⟨rfl, hru, hne⟩
          · rintro ⟨h, -, -⟩
            injection h with h; subst h; rfl

/-- C8 witness: both prongs of the characterization at concrete inputs:
legacy id `9` resolved for acting user 1 with the flag enabled, and code
`uABCDEFGH9` normalized to `ABCDEFGH9` and resolved to user 7. -/
theorem c8_witness :
    resolveRef 1 true (fun i => i == 9) (fun _ => none) "9".data = some 9
    ∧ resolveRef 1 true (fun _ => false)
        (fun c => if c == "ABCDEFGH9".data then some 7 else none) "uABCDEFGH9".data = some 7 :=
  ⟨((c8_referral_resolution 1 true (fun i => i == 9) (fun _ => none) "9".data 9).1
      (by decide) (by decide)).mpr ⟨rfl, by decide, by decide, by decide⟩,
   ((c8_referral_resolution 1 true (fun _ => false)
        (fun c => if c == "ABCDEFGH9".data then some 7 else none) "uABCDEFGH9".data 7).2
      (by decide)).mpr ⟨by decide, by decide, by decide⟩⟩


/-! ### Claim C3 -/

/-- Normal form of the gate once the live query is reached
(start.py lines 309-416, as written — see the missing-import note). -/
def queryResult (ch : Int) (q : MemberQuery) : GateOut :=
  match q with
  | .status s =>
    if allowedStatuses.contains s then ⟨false, true, 1, some (ch, true), []⟩
    else ⟨false, false, 1, some (ch, false), [.blockPrompt]⟩
  | .badRequest => ⟨true, false, 1, none, []⟩
  | .forbidden => ⟨true, false, 1, none, []⟩
  | .apiError => ⟨true, false, 1, none, []⟩

lemma gateLiveCond_elim (e : GateEnv) (h : gateLiveCond e = true) :
    ∃ ch u, e.requiredChannel = some ch ∧ e.dbUser = some u ∧ (ch == 0) = false
      ∧ e.isAdmin = false ∧ (u.verified && u.verifiedFor == some ch) = false := by
  obtain ⟨rc, adm, du, q, p⟩ := e
  cases rc with
  | none => simp [gateLiveCond] at h
  | some ch =>
    cases du with
    | none => simp [gateLiveCond] at h
    | some u =>
      simp only [gateLiveCond, Bool.and_eq_true, Bool.not_eq_true'] at h
      exact ⟨ch, u, rfl, rfl, h.1.1, h.1.2, h.2⟩

lemma gate_query_eval (ch : Int) (u : GateUser) (q : MemberQuery) (p : Bool)
    (hch : (ch == 0) = false)
    (hcache : (u.verified && u.verifiedFor == some ch) = false) :
    ensureRequiredChannelSubscription ⟨some ch, false, some u, q, p⟩
      = queryResult ch q := by
  simp only [ensureRequiredChannelSubscription, hch, hcache, Bool.false_eq_true,
    if_false, queryResult]

lemma gate_skip_eval (e : GateEnv) (h : gateLiveCond e = false) :
    ensureRequiredChannelSubscription e = ⟨false, true, 0, none, []⟩ := by
  obtain ⟨rc, adm, du, q, p⟩ := e
  cases rc with
  | none => rfl
  | some ch =>
    by_cases hch : (ch == 0) = true
    · simp [ensureRequiredChannelSubscription, hch]
    · rw [Bool.not_eq_true] at hch
      cases adm with
      | true => simp [ensureRequiredChannelSubscription, hch]
      | false =>
        cases du with
        | none => simp [ensureRequiredChannelSubscription, hch]
        | some u =>
          have hcache : (u.verified && u.verifiedFor == some ch) = true := by
            simp only [gateLiveCond, hch, Bool.not_false, Bool.true_and,
              Bool.and_eq_true, Bool.not_eq_true'] at h
            simpa using h
          simp [ensureRequiredChannelSubscription, hch, hcache]

lemma gate_queries_one_of_cond (e : GateEnv) (h : gateLiveCond e = true) :
    (ensureRequiredChannelSubscription e).liveQueries = 1 := by
  obtain ⟨rc, adm, du, q, p⟩ := e
  obtain ⟨ch, u, hrc, hdu, hch, hadm, hcache⟩ := gateLiveCond_elim _ h
  simp only at hrc hdu hadm
  subst hrc hdu hadm
  rw [gate_query_eval ch u q p hch hcache]
  cases q with
  | status s =>
    simp only [queryResult]
    split <;> rfl
  | badRequest => rfl
  | forbidden => rfl
  | apiError => rfl

/-- C3: the channel gate performs the live `get_chat_member` query if and
only if a required channel is configured (truthy), the acting user is not
an administrator, the user record exists, and the cache does not hold
`verified=true` with `verified_for` equal to the required channel; in all
other cases it returns Allow immediately with zero messaging-API calls
(no query, no message, nothing raised); and in particular a cache naming
a different channel than the required one forces a fresh live query. -/
theorem c3_gate_live_query_iff (e : GateEnv) :
    ((ensureRequiredChannelSubscription e).liveQueries = 1 ↔ gateLiveCond e = true)
    ∧ (gateLiveCond e = false →
        (ensureRequiredChannelSubscription e).allow = true
        ∧ (ensureRequiredChannelSubscription e).liveQueries = 0
        ∧ (ensureRequiredChannelSubscription e).msgs = []
        ∧ (ensureRequiredChannelSubscription e).raised = false)
    ∧ (∀ ch u, e.requiredChannel = some ch → ¬ch = 0 → e.isAdmin = false →
        e.dbUser = some u → ¬u.verifiedFor = some ch →
        (ensureRequiredChannelSubscription e).liveQueries = 1) := by
  refine ⟨⟨?_, gate_queries_one_of_cond e⟩, ?_, ?_⟩
  · intro h1
    cases hcond : gateLiveCond e with
    | true => rfl
    | false =>
      rw [gate_skip_eval e hcond] at h1
      simp at h1
  · intro h
    rw [gate_skip_eval e h]
    exact ⟨rfl, rfl, rfl, rfl⟩
  · intro ch u hrc hch0 hadm hdu hvf
    apply gate_queries_one_of_cond
    have hch : (ch == 0) = false := by simpa using hch0
    have hcache : (u.verified && u.verifiedFor == some ch) = false := by
      have : (u.verifiedFor == some ch) = false := by simpa using hvf
      simp [this]
    obtain ⟨rc, adm, du, q, p⟩ := e
    simp only at hrc hdu hadm
    subst hrc hdu hadm
    simp only [gateLiveCond, hch, hcache]
    rfl

/-- C3 witness: a cache verified for channel `-2000` while the required
channel is `-1001` forces a live query (one `get_chat_member` call). -/
theorem c3_witness :
    (ensureRequiredChannelSubscription
        ⟨some (-1001), false, some ⟨true, some (-2000)⟩, .status "member", true⟩).liveQueries = 1
    ∧ gateLiveCond ⟨some (-1001), false, some ⟨true, some (-2000)⟩, .status "member", true⟩ = true
    ∧ (ensureRequiredChannelSubscription
        ⟨none, false, some ⟨false, none⟩, .status "left", true⟩).allow = true
    ∧ (ensureRequiredChannelSubscription
        ⟨none, false, some ⟨false, none⟩, .status "left", true⟩).liveQueries = 0 :=
  ⟨(c3_gate_live_query_iff
      ⟨some (-1001), false, some ⟨true, some (-2000)⟩, .status "member", true⟩).2.2
      (-1001) ⟨true, some (-2000)⟩ rfl (by decide) rfl rfl (by decide),
   by decide,
   ((c3_gate_live_query_iff ⟨none, false, some ⟨false, none⟩, .status "left", true⟩).2.1
      (by decide)).1,
   ((c3_gate_live_query_iff ⟨none, false, some ⟨false, none⟩, .status "left", true⟩).2.1
      (by decide)).2.1⟩

/-! ### Claim C6 -/

/-- C6: the claim describes the fault handling written in the except
clauses of the gate (localized "check failed" message, Block, no cache
write), but those clauses name `TelegramBadRequest` /
`TelegramForbiddenError` / `TelegramAPIError`, which are never imported
in `start.py`; evaluating the first clause raises `NameError`, so every
`get_chat_member` fault escapes the gate unhandled.  This theorem
evaluates the code at the failing input (configured channel `-1001`,
non-admin persisted user with no cache hit, query raising
`TelegramForbiddenError`): the gate raises, sends no "check failed"
message, writes no cache, and also the definitive not-a-member
bad-request — intended to be cached as `verified=false` — raises
instead of caching. -/
theorem c6_gate_fault_namerror :
    (ensureRequiredChannelSubscription
        ⟨some (-1001), false, some ⟨false, none⟩, .forbidden, true⟩).raised = true
    ∧ (ensureRequiredChannelSubscription
        ⟨some (-1001), false, some ⟨false, none⟩, .forbidden, true⟩).allow = false
    ∧ (ensureRequiredChannelSubscription
        ⟨some (-1001), false, some ⟨false, none⟩, .forbidden, true⟩).msgs = []
    ∧ (ensureRequiredChannelSubscription
        ⟨some (-1001), false, some ⟨false, none⟩, .forbidden, true⟩).cacheWrite = none
    ∧ (ensureRequiredChannelSubscription
        ⟨some (-1001), false, some ⟨false, none⟩, .apiError, true⟩).raised = true
    ∧ (ensureRequiredChannelSubscription
        ⟨some (-1001), false, some ⟨false, none⟩, .badRequest, true⟩).raised = true
    ∧ (ensureRequiredChannelSubscription
        ⟨some (-1001), false, some ⟨false, none⟩, .badRequest, true⟩).cacheWrite = none := by
  decide

/-! ### Claim C1 -/

/-- C1 counterexample: `edit_photo_menu` invoked without a replacement
photo, with the caption-edit rejected (`TelegramBadRequest`) and the
final `edit_text` fallback failing too — both failures drawn from the
claim's edit-call set.  The helper propagates the exception to its
caller and the pending callback acknowledgment is never resolved,
refuting the claim for the callback-update helpers. -/
theorem c1_counterexample :
    (editPhotoMenu false ⟨.badRequest, .ok, false⟩).raised = true
    ∧ (editPhotoMenu false ⟨.badRequest, .ok, false⟩).answered = false := by
  decide

/-- C1 (amended): `send_main_menu`, whenever the localization instance is
present, returns normally for every behaviour of the send/edit/delete
calls and, when the triggering event is an interactive callback, always
resolves the pending acknowledgment at the end of the pipeline; the
callback-update helpers do not share the guarantee — `edit_photo_menu`
resolves the acknowledgment only on runs that return normally (and can
propagate a failure of its unprotected final edit-text fallback, or any
non-BadRequest edit failure), and `reply_or_edit` never resolves the
acknowledgment and propagates an exception precisely when the message
context is lost and the direct send fails (all its other call sites sit
under catch-all `try/except`). -/
theorem c1_amended (e : MenuEnv) (a : MenuApi) (b : EpmApi) (pg : Bool)
    (re : RoeEnv) (ra : RoeApi)
    (h : e.i18nPresent = true) :
    ((sendMainMenu e a).raised = false
      ∧ (e.isCallback = true → MCall.cAck ∈ (sendMainMenu e a).calls))
    ∧ ((editPhotoMenu pg b).raised = false → (editPhotoMenu pg b).answered = true)
    ∧ ((replyOrEdit re ra).raised = true ↔
        re.hasMessage = false ∧ ra.sendNoCtxOk = false)
    ∧ MCall.cAck ∉ (replyOrEdit re ra).calls := by
  refine ⟨⟨?_, ?_⟩, ?_, ?_, ?_⟩
  · simp [sendMainMenu, h]
  · intro hcb
    simp [sendMainMenu, h, hcb]
  · obtain ⟨ec, em, et⟩ := b
    cases ec <;> cases em <;> cases et <;> cases pg <;> simp [editPhotoMenu]
  · obtain ⟨hm, hph, hcap⟩ := re
    obtain ⟨r1, r2, r3, r4, r5⟩ := ra
    cases hm <;> cases hph <;> cases hcap <;> cases r1 <;> cases r2 <;>
      cases r3 <;> cases r4 <;> cases r5 <;> simp [replyOrEdit]
  · obtain ⟨hm, hph, hcap⟩ := re
    obtain ⟨r1, r2, r3, r4, r5⟩ := ra
    cases hm <;> cases hph <;> cases hcap <;> cases r1 <;> cases r2 <;>
      cases r3 <;> cases r4 <;> cases r5 <;> simp [replyOrEdit]

/-- C1 witness: the amended claim at a callback edit-render with every
send/edit/delete call failing, at a successful `edit_photo_menu` run,
and at a `reply_or_edit` run with the message context lost and the
direct send failing. -/
theorem c1_amended_witness :
    (sendMainMenu ⟨true, true, true, true, true, true⟩
        ⟨false, false, false, false, false, false, false, false, false, false, false⟩).raised = false
    ∧ MCall.cAck ∈ (sendMainMenu ⟨true, true, true, true, true, true⟩
        ⟨false, false, false, false, false, false, false, false, false, false, false⟩).calls
    ∧ ((editPhotoMenu true ⟨.ok, .ok, true⟩).raised = false →
        (editPhotoMenu true ⟨.ok, .ok, true⟩).answered = true)
    ∧ (replyOrEdit ⟨false, false, true⟩ ⟨false, true, true, true, true⟩).raised = true
    ∧ MCall.cAck ∉ (replyOrEdit ⟨false, false, true⟩ ⟨false, true, true, true, true⟩).calls :=
  let T := c1_amended ⟨true, true, true, true, true, true⟩
    ⟨false, false, false, false, false, false, false, false, false, false, false⟩
    ⟨.ok, .ok, true⟩ true ⟨false, false, true⟩ ⟨false, true, true, true, true⟩ rfl
  ⟨T.1.1, T.1.2 rfl, T.2.1, T.2.2.1.mpr ⟨rfl, rfl⟩, T.2.2.2⟩

/-! ### Claim C9 -/

/-- C9: when the main menu is rendered in edit mode (`is_edit=True`, the
image asset present) onto an existing message: if the message currently
holds a photo and the caption edit succeeds, exactly one edit-caption
call is issued (no edit-media, no send-new — the whole render trace is
that one call plus the closing callback ack); if the message does not
hold a photo, an edit-media call carrying the new caption is issued and
no caption edit ever is. -/
theorem c9_menu_edit_render (e : MenuEnv) (a : MenuApi)
    (hi : e.i18nPresent = true) (him : e.hasImage = true) (he : e.isEdit = true)
    (hm : menuMsgObj e = true) :
    (e.msgHasPhoto = true → a.editCaptionOk = true →
      (sendMainMenu e a).calls
        = [MCall.cEditCaption] ++ (if e.isCallback then [MCall.cAck] else []))
    ∧ (e.msgHasPhoto = false →
      MCall.cEditMedia true ∈ (sendMainMenu e a).calls
      ∧ MCall.cEditCaption ∉ (sendMainMenu e a).calls) := by
  constructor
  · intro hp hc
    simp [sendMainMenu, sendMainMenuCalls, hi, him, he, hm, hp, hc]
  · intro hp
    cases hem : a.editMediaOk <;> cases hcb : e.isCallback <;>
      simp [sendMainMenu, sendMainMenuCalls, hi, him, he, hm, hp, hem, hcb]

/-- C9 witness: a callback edit-render on a photo-holding message with a
succeeding caption edit, and one on a text message. -/
theorem c9_witness :
    (sendMainMenu ⟨true, true, true, true, true, true⟩
        ⟨true, true, true, true, true, true, true, true, true, true, true⟩).calls
      = [MCall.cEditCaption, MCall.cAck]
    ∧ MCall.cEditMedia true ∈ (sendMainMenu ⟨true, true, true, true, true, false⟩
        ⟨true, true, true, true, true, true, true, true, true, true, true⟩).calls
    ∧ MCall.cEditCaption ∉ (sendMainMenu ⟨true, true, true, true, true, false⟩
        ⟨true, true, true, true, true, true, true, true, true, true, true⟩).calls :=
  let T1 := c9_menu_edit_render ⟨true, true, true, true, true, true⟩
    ⟨true, true, true, true, true, true, true, true, true, true, true⟩ rfl rfl rfl rfl
  let T2 := c9_menu_edit_render ⟨true, true, true, true, true, false⟩
    ⟨true, true, true, true, true, true, true, true, true, true, true⟩ rfl rfl rfl rfl
  ⟨T1.1 rfl rfl, (T2.2 rfl).1, (T2.2 rfl).2⟩

/-! ### Orchestration helper lemmas -/

lemma adPart_genericError_free (t : TailEnv) (adTok : Option (List Char)) :
    Ev.evGenericError ∉ adPart t adTok := by
  cases adTok with
  | none => simp [adPart]
  | some tok =>
    simp only [adPart]
    split_ifs <;> simp

lemma welcomePart_genericError_free (t : TailEnv) :
    Ev.evGenericError ∉ welcomePart t := by
  simp only [welcomePart]
  split_ifs <;> simp

lemma promoEnding_genericError_free (t : TailEnv) :
    Ev.evGenericError ∉ promoEnding t := by
  cases hpa : t.promoApply <;> simp only [promoEnding, hpa] <;>
    first
    | (split_ifs <;> simp)
    | simp

lemma startTail_shape (t : TailEnv) (adTok promo : Option (List Char))
    (pre : List Ev) :
    ∃ suf, startTail t adTok promo pre = pre ++ suf
      ∧ Ev.evGate ∈ suf ∧ Ev.evGenericError ∉ suf := by
  unfold startTail
  cases hga : t.gateAllows with
  | false =>
    refine ⟨adPart t adTok ++ [Ev.evGate], by simp, by simp, ?_⟩
    simp [adPart_genericError_free]
  | true =>
    cases promo with
    | none =>
      refine ⟨adPart t adTok ++ [Ev.evGate] ++ welcomePart t ++ [Ev.evMainMenu],
        by simp, by simp, ?_⟩
      simp [adPart_genericError_free, welcomePart_genericError_free]
    | some c =>
      refine ⟨adPart t adTok ++ [Ev.evGate] ++ welcomePart t ++ [Ev.evPromoApply c]
          ++ promoEnding t, by simp, by simp, ?_⟩
      simp [adPart_genericError_free, welcomePart_genericError_free,
        promoEnding_genericError_free]

lemma startTail_gate_mem (t : TailEnv) (adTok promo : Option (List Char))
    (pre : List Ev) : Ev.evGate ∈ startTail t adTok promo pre := by
  obtain ⟨suf, hs, hg, -⟩ := startTail_shape t adTok promo pre
  rw [hs]
  exact List.mem_append_right _ hg

lemma startTail_genericError_free (t : TailEnv) (adTok promo : Option (List Char))
    (pre : List Ev) (h : Ev.evGenericError ∉ pre) :
    Ev.evGenericError ∉ startTail t adTok promo pre := by
  obtain ⟨suf, hs, -, hge⟩ := startTail_shape t adTok promo pre
  rw [hs]
  simp [h, hge]

/-! ### Claim C5 -/

/-- C5: if the transactional commit of a brand-new user's creation fails,
the start handler's whole trace is create / commit-attempt / rollback /
generic-error-report — it returns immediately, so no welcome, no ad
attribution, no channel-gate check, no promo application and no main-menu
render happen for that event, and the user is not persisted. -/
theorem c5_create_commit_failure_aborts (e : StartEnv)
    (h1 : e.userExists e.userId = false) (h2 : e.createOk = true)
    (h3 : e.createdFlag = true) (h4 : e.commitOk = false) :
    (startCommandHandler e).trace
      = [.evCreate, .evCommit, .evRollback, .evGenericError]
    ∧ (startCommandHandler e).userPersisted = false
    ∧ Ev.evGate ∉ (startCommandHandler e).trace
    ∧ Ev.evWelcome ∉ (startCommandHandler e).trace
    ∧ Ev.evMainMenu ∉ (startCommandHandler e).trace
    ∧ (∀ t, Ev.evAdAttr t ∉ (startCommandHandler e).trace)
    ∧ (∀ c, Ev.evPromoApply c ∉ (startCommandHandler e).trace) := by
  have he : startCommandHandler e
      = ⟨[.evCreate, .evCommit, .evRollback, .evGenericError], none, false⟩ := by
    simp [startCommandHandler, h1, h2, h3, h4]
  rw [he]
  refine ⟨rfl, rfl, by simp, by simp, by simp, ?_, ?_⟩
  · intro t
    simp
  · intro c
    simp

/-- Concrete environment for the C5 witness: brand-new user, creation
commit failing. -/
def c5Env : StartEnv :=
  { c2Env with payload := none, userExists := fun _ => false, commitOk := false }

/-- C5 witness: the abort behaviour at the concrete environment. -/
theorem c5_witness :
    (startCommandHandler c5Env).trace
      = [.evCreate, .evCommit, .evRollback, .evGenericError]
    ∧ (startCommandHandler c5Env).userPersisted = false
    ∧ Ev.evGate ∉ (startCommandHandler c5Env).trace :=
  let T := c5_create_commit_failure_aborts c5Env rfl rfl rfl rfl
  ⟨T.1, T.2.1, T.2.2.1⟩

/-! ### Claim C10 -/

/-- C10: for an already-existing user, a failure of the persistence
write that updates changed profile fields / backfills the referral is
swallowed: the event's effect trace is identical to the trace of the
same event with the write succeeding (same ad attribution, channel gate,
welcome, promo application and main-menu render), the gate is reached,
and no generic processing error is reported — only the creation-commit
path aborts the event. -/
theorem c10_update_failure_swallowed (e : StartEnv)
    (h1 : e.userExists e.userId = true) :
    (startCommandHandler e).trace
      = (startCommandHandler { e with updateOk := true }).trace
    ∧ Ev.evGate ∈ (startCommandHandler e).trace
    ∧ Ev.evGenericError ∉ (startCommandHandler e).trace := by
  have hne : (!e.userExists e.userId) = false := by simp [h1]
  have he : (startCommandHandler e).trace
      = startTail e.tail
          (match resolveIntent e.userId e.legacy e.userExists e.codeLookup e.payload with
           | .adTag tok => some tok
           | _ => none)
          (match resolveIntent e.userId e.legacy e.userExists e.codeLookup e.payload with
           | .promoCode c => some c
           | _ => none)
          (if (e.langChanged || e.nameChanged
                || (match (match resolveIntent e.userId e.legacy e.userExists e.codeLookup e.payload with
                          | .referral r => some r
                          | _ => none), e.dbReferredBy with
                    | some r, none =>
                      if !(if e.subCheckOk then e.hasActiveSub else false) then some r else none
                    | _, _ => none).isSome)
            then [Ev.evUpdate (match (match resolveIntent e.userId e.legacy e.userExists e.codeLookup e.payload with
                          | .referral r => some r
                          | _ => none), e.dbReferredBy with
                    | some r, none =>
                      if !(if e.subCheckOk then e.hasActiveSub else false) then some r else none
                    | _, _ => none)]
            else []) := by
    simp only [startCommandHandler, hne, Bool.false_eq_true, if_false]
  have he2 : (startCommandHandler { e with updateOk := true }).trace
      = (startCommandHandler e).trace := by
    rw [he]
    simp only [startCommandHandler, StartEnv.tail, hne, Bool.false_eq_true, if_false]
  refine ⟨he2.symm, ?_, ?_⟩
  · rw [he]
    exact startTail_gate_mem _ _ _ _
  · rw [he]
    apply startTail_genericError_free
    split_ifs <;> simp

/-! ### Claim C4 -/

/-- Concrete environment for the C4 counterexample: existing user 1 with
no referrer recorded, a referral payload resolving to user 42, an ACTIVE
subscription, and the `has_active_subscription` collaborator call
raising (the handler catches the exception and defaults the answer to
"not active", lines 530-534). -/
def c4Env : StartEnv :=
  { c2Env with
    payload := some "ref_ABCDEFGH9".data
    codeLookup := fun c => if c == "ABCDEFGH9".data then some 42 else none
    hasActiveSub := true
    subCheckOk := false }

/-- C4 counterexample: a user who currently holds an active subscription
receives retroactive referral attribution when the subscription check
faults, because the handler swallows the fault and defaults to
"not active" — refuting "a user with an active subscription never
receives retroactive referral attribution". -/
theorem c4_counterexample :
    c4Env.hasActiveSub = true
    ∧ c4Env.dbReferredBy = none
    ∧ (startCommandHandler c4Env).referredBy = some 42 := by decide

/-- C4 (amended): `referred_by`, once non-null, is never changed by a
subsequent start event; and for a user with `referred_by` currently
null, the backfill lands exactly when a referrer was resolved from this
event's payload, the subscription check *reports* no active subscription
(on a check fault the handler defaults to "not active", so an active
subscriber whose check faults IS attributed), and the persistence write
succeeds. -/
theorem c4_amended (e : StartEnv) (r : Nat)
    (h1 : e.userExists e.userId = true) :
    (∀ r0, e.dbReferredBy = some r0 →
      (startCommandHandler e).referredBy = some r0)
    ∧ (e.dbReferredBy = none →
        ((startCommandHandler e).referredBy = some r ↔
          resolvedReferrer e = some r
          ∧ (e.subCheckOk = true → e.hasActiveSub = false)
          ∧ e.updateOk = true)) := by
  have hne : (!e.userExists e.userId) = false := by simp [h1]
  constructor
  · intro r0 h2
    simp only [startCommandHandler, hne, Bool.false_eq_true, if_false, h2]
    cases hI : resolveIntent e.userId e.legacy e.userExists e.codeLookup e.payload <;>
      simp
  · intro h2
    simp only [startCommandHandler, hne, Bool.false_eq_true, if_false, h2,
      resolvedReferrer]
    cases hI : resolveIntent e.userId e.legacy e.userExists e.codeLookup e.payload with
    | referral r' =>
      cases hsc : e.subCheckOk <;> cases hha : e.hasActiveSub <;>
        cases hup : e.updateOk <;> cases hlc : e.langChanged <;>
        cases hnc : e.nameChanged <;> simp_all
    | promoCode c => simp
    | adTag t => simp
    | noneI => simp

/-- Environment for the C4 witness: same referral event with the
subscription check succeeding and reporting no active subscription. -/
def c4WEnv : StartEnv :=
  { c4Env with hasActiveSub := false, subCheckOk := true }

/-- C4 witness: the backfill happens for an inactive user with an
unset referrer, and an already-set referrer survives the same event. -/
theorem c4_amended_witness :
    (startCommandHandler c4WEnv).referredBy = some 42
    ∧ (startCommandHandler { c4WEnv with dbReferredBy := some 7 }).referredBy = some 7 :=
  ⟨((c4_amended c4WEnv 42 rfl).2 rfl).mpr ⟨by decide, fun _ => rfl, rfl⟩,
   (c4_amended { c4WEnv with dbReferredBy := some 7 } 42 rfl).1 7 rfl⟩

/-! ### Claim C7 -/

/-- Concrete environment for the C7 counterexample: existing user,
payload `promo_SAVE20` passing the gate, promo application succeeding,
commit and details fetch succeeding, but the promo-success surface send
failing. -/
def c7Env : StartEnv :=
  { c2Env with
    payload := some "promo_SAVE20".data
    promoApply := .applied
    promoAnswerOk := false }

/-- C7 counterexample: the promo application collaborator succeeds and
the transaction is committed, yet the main menu IS rendered and no
promo-success surface is delivered, because the success-surface send
raises after the commit and the `except` at line 621 rolls back and
falls through to the menu — refuting "a promo-success surface is
rendered, and the main menu is not rendered". -/
theorem c7_counterexample :
    c7Env.promoApply = .applied
    ∧ c7Env.promoCommitOk = true
    ∧ Ev.evPromoCommit ∈ (startCommandHandler c7Env).trace
    ∧ Ev.evMainMenu ∈ (startCommandHandler c7Env).trace
    ∧ Ev.evPromoSuccess ∉ (startCommandHandler c7Env).trace := by decide

lemma adPart_promo_free (t : TailEnv) (adTok : Option (List Char)) :
    Ev.evMainMenu ∉ adPart t adTok ∧ Ev.evPromoSuccess ∉ adPart t adTok
    ∧ Ev.evPromoRollback ∉ adPart t adTok ∧ Ev.evPromoCommit ∉ adPart t adTok := by
  cases adTok with
  | none => simp [adPart]
  | some tok =>
    simp only [adPart]
    split_ifs <;> simp

lemma welcomePart_promo_free (t : TailEnv) :
    Ev.evMainMenu ∉ welcomePart t ∧ Ev.evPromoSuccess ∉ welcomePart t
    ∧ Ev.evPromoRollback ∉ welcomePart t ∧ Ev.evPromoCommit ∉ welcomePart t := by
  simp only [welcomePart]
  split_ifs <;> simp

lemma startTail_promo_claims (t : TailEnv) (c : List Char) (pre : List Ev)
    (hg : t.gateAllows = true)
    (hm : Ev.evMainMenu ∉ pre) (hs : Ev.evPromoSuccess ∉ pre) :
    (t.promoApply = .applied → t.promoCommitOk = true → t.detailsOk = true →
      t.promoAnswerOk = true →
      Ev.evPromoCommit ∈ startTail t none (some c) pre
      ∧ Ev.evPromoSuccess ∈ startTail t none (some c) pre
      ∧ Ev.evMainMenu ∉ startTail t none (some c) pre)
    ∧ ((t.promoApply = .failed ∨ t.promoApply = .raised) →
      Ev.evPromoRollback ∈ startTail t none (some c) pre
      ∧ Ev.evMainMenu ∈ startTail t none (some c) pre
      ∧ Ev.evPromoSuccess ∉ startTail t none (some c) pre)
    ∧ (t.promoApply = .applied →
      ¬(t.promoCommitOk = true ∧ t.detailsOk = true ∧ t.promoAnswerOk = true) →
      Ev.evPromoRollback ∈ startTail t none (some c) pre
      ∧ Ev.evMainMenu ∈ startTail t none (some c) pre
      ∧ Ev.evPromoSuccess ∉ startTail t none (some c) pre) := by
  simp only [startTail, hg, Bool.not_true, Bool.false_eq_true, if_false]
  obtain ⟨hmA, hsA, hrA, hcA⟩ := adPart_promo_free t none
  obtain ⟨hmW, hsW, hrW, hcW⟩ := welcomePart_promo_free t
  refine ⟨?_, ?_, ?_⟩
  · intro hpa hcm hdet hans
    have hend : promoEnding t = [Ev.evPromoCommit, Ev.evPromoSuccess] := by
      simp [promoEnding, hpa, hcm, hdet, hans]
    rw [hend]
    refine ⟨by simp, by simp, ?_⟩
    simp [hm, hmA, hmW]
  · intro hfr
    have hend : promoEnding t = [Ev.evPromoRollback, Ev.evMainMenu] := by
      rcases hfr with h | h <;> simp [promoEnding, h]
    rw [hend]
    refine ⟨by simp, by simp, ?_⟩
    simp [hs, hsA, hsW]
  · intro hpa hnot
    have hend : promoEnding t = [Ev.evPromoRollback, Ev.evMainMenu]
        ∨ promoEnding t = [Ev.evPromoCommit, Ev.evPromoRollback, Ev.evMainMenu] := by
      cases hcm : t.promoCommitOk with
      | false => exact Or.inl (by simp [promoEnding, hpa, hcm])
      | true =>
        cases hdet : t.detailsOk with
        | false => exact Or.inr (by simp [promoEnding, hpa, hcm, hdet])
        | true =>
          cases hans : t.promoAnswerOk with
          | false => exact Or.inr (by simp [promoEnding, hpa, hcm, hdet, hans])
          | true => exact absurd ⟨hcm, hdet, hans⟩ hnot
    rcases hend with hend | hend <;> rw [hend] <;>
      exact ⟨by simp, by simp, by simp [hs, hsA, hsW]⟩

/-- C7 (amended): for any start event carrying a promo-code payload
whose flow reaches the channel gate (first-time user after a successful
creation commit, a concurrently-created user, or an existing user) and
passes it: when the promo application succeeds AND the subsequent
commit, subscription-details fetch and success-surface send all
succeed, the transaction is committed, the promo-success surface is
rendered and the main menu is not; when the promo application fails or
raises, the transaction is rolled back and the flow continues to the
normal main menu; and when the application succeeds but any of the
subsequent steps faults, the handler also rolls back and falls through
to the main menu (no success surface). -/
theorem c7_amended (e : StartEnv) (c : List Char)
    (hp : resolveIntent e.userId e.legacy e.userExists e.codeLookup e.payload
      = .promoCode c)
    (hg : e.gateAllows = true)
    (hreach : Ev.evGate ∈ (startCommandHandler e).trace) :
    (e.promoApply = .applied → e.promoCommitOk = true → e.detailsOk = true →
      e.promoAnswerOk = true →
      Ev.evPromoCommit ∈ (startCommandHandler e).trace
      ∧ Ev.evPromoSuccess ∈ (startCommandHandler e).trace
      ∧ Ev.evMainMenu ∉ (startCommandHandler e).trace)
    ∧ ((e.promoApply = .failed ∨ e.promoApply = .raised) →
      Ev.evPromoRollback ∈ (startCommandHandler e).trace
      ∧ Ev.evMainMenu ∈ (startCommandHandler e).trace
      ∧ Ev.evPromoSuccess ∉ (startCommandHandler e).trace)
    ∧ (e.promoApply = .applied →
      ¬(e.promoCommitOk = true ∧ e.detailsOk = true ∧ e.promoAnswerOk = true) →
      Ev.evPromoRollback ∈ (startCommandHandler e).trace
      ∧ Ev.evMainMenu ∈ (startCommandHandler e).trace
      ∧ Ev.evPromoSuccess ∉ (startCommandHandler e).trace) := by
  have hg' : e.tail.gateAllows = true := hg
  by_cases hu : e.userExists e.userId = true
  · have hne : (!e.userExists e.userId) = false := by simp [hu]
    have htr : (startCommandHandler e).trace
        = startTail e.tail none (some c)
            (if e.langChanged || e.nameChanged then [Ev.evUpdate none] else []) := by
      simp only [startCommandHandler, hne, Bool.false_eq_true, if_false, hp,
        Option.isSome_none, Bool.or_false]
    rw [htr]
    exact startTail_promo_claims e.tail c _ hg'
      (by split_ifs <;> simp) (by split_ifs <;> simp)
  · have hfu : e.userExists e.userId = false := by simpa using hu
    have hne : (!e.userExists e.userId) = true := by simp [hfu]
    cases hco : e.createOk with
    | false =>
      have hcoN : (!e.createOk) = true := by simp [hco]
      have htr : (startCommandHandler e).trace = [Ev.evCreate, Ev.evGenericError] := by
        simp only [startCommandHandler, hne, hcoN, if_true]
      rw [htr] at hreach
      simp at hreach
    | true =>
      have hcoN : (!e.createOk) = false := by simp [hco]
      cases hcf : e.createdFlag with
      | true =>
        cases hcm : e.commitOk with
        | false =>
          have hcmN : (!e.commitOk) = true := by simp [hcm]
          have htr : (startCommandHandler e).trace
              = [Ev.evCreate, Ev.evCommit, Ev.evRollback, Ev.evGenericError] := by
            simp only [startCommandHandler, hne, hcoN, Bool.false_eq_true, if_false,
              if_true, hcf, hcmN]
          rw [htr] at hreach
          simp at hreach
        | true =>
          have hcmN : (!e.commitOk) = false := by simp [hcm]
          have htr : (startCommandHandler e).trace
              = startTail e.tail none (some c)
                  [Ev.evCreate, Ev.evCommit, Ev.evNotify] := by
            simp only [startCommandHandler, hne, hcoN, Bool.false_eq_true, if_false,
              if_true, hcf, hcmN, hp]
          rw [htr]
          exact startTail_promo_claims e.tail c _ hg' (by simp) (by simp)
      | false =>
        have htr : (startCommandHandler e).trace
            = startTail e.tail none (some c) [Ev.evCreate] := by
          simp only [startCommandHandler, hne, hcoN, Bool.false_eq_true, if_false,
            if_true, hcf, hp]
        rw [htr]
        exact startTail_promo_claims e.tail c _ hg' (by simp) (by simp)

/-- Environment for the C7 witness: the same promo event as the
counterexample but for a FIRST-TIME user (creation commit succeeding)
and with the success-surface send also succeeding. -/
def c7WEnv : StartEnv :=
  { c7Env with promoAnswerOk := true, userExists := fun _ => false }

/-- C7 witness: for a brand-new user, a successful application commits
and renders the success surface with no menu; a failed application
rolls back and falls through to the menu. -/
theorem c7_witness :
    (Ev.evPromoCommit ∈ (startCommandHandler c7WEnv).trace
      ∧ Ev.evPromoSuccess ∈ (startCommandHandler c7WEnv).trace
      ∧ Ev.evMainMenu ∉ (startCommandHandler c7WEnv).trace)
    ∧ (Ev.evPromoRollback
        ∈ (startCommandHandler { c7WEnv with promoApply := .failed }).trace
      ∧ Ev.evMainMenu
        ∈ (startCommandHandler { c7WEnv with promoApply := .failed }).trace
      ∧ Ev.evPromoSuccess
        ∉ (startCommandHandler { c7WEnv with promoApply := .failed }).trace) :=
  ⟨(c7_amended c7WEnv "SAVE20".data (by decide) (by decide) (by decide)).1
      rfl rfl rfl rfl,
   (c7_amended { c7WEnv with promoApply := .failed } "SAVE20".data
      (by decide) (by decide) (by decide)).2.1 (Or.inl rfl)⟩

/-- Environment for the C10 witness: existing user with a changed
locale and the profile-update write failing. -/
def c10WEnv : StartEnv := { c2Env with updateOk := false, langChanged := true }

/-- C10 witness: the swallowed update failure at a concrete event. -/
theorem c10_witness :
    (startCommandHandler c10WEnv).trace
      = (startCommandHandler { c10WEnv with updateOk := true }).trace
    ∧ Ev.evGate ∈ (startCommandHandler c10WEnv).trace
    ∧ Ev.evGenericError ∉ (startCommandHandler c10WEnv).trace :=
  c10_update_failure_swallowed c10WEnv (by decide)
